import Mathlib

/-!
Verification of the sqlterm cross-backend data/schema abstraction layer.

Shallow embedding of the core data model (`crates/sqlterm-core/src/result.rs`,
`error.rs`, `connection.rs`, `schema.rs`) and of the per-backend value-decoding
cascades (`crates/sqlterm-sqlite/src/query.rs`, `crates/sqlterm-mysql/src/query.rs`,
`crates/sqlterm-mysql/src/connection.rs`) and connect entry points.

Modelling conventions:
- Rust `usize`/`u64`/`u16` are `Nat`; signed machine integers are `Int`
  (with explicit wrap where the source uses `as` casts on out-of-range values);
- `std::time::Duration` is an abstract `Nat` (claims never inspect it);
- IEEE-754 doubles are abstracted by their textual rendering (`F64.render`),
  since no claim depends on float arithmetic, only on pass-through and display;
- a raw driver cell is abstracted by the outcome of every `try_get` probe the
  source may attempt on it (`RawCell`, `MySqlConnRawCell`): `none` means the
  probe fails, `some v` means it succeeds with payload `v`;
- async trait methods are pure `Except SqlTermError` functions.
-/

/-- IEEE-754 double, abstracted by its decimal rendering. No claim depends on
float arithmetic; the cascades only pass doubles through (`f32 as f64` widening
is value-preserving, so both widths share this carrier). -/
structure F64 where
  render : String
deriving DecidableEq

/-- `sqlterm_core::Value` (result.rs lines 29-41). -/
inductive Value where
  | string (s : String)
  | integer (i : Int)
  | float (f : F64)
  | boolean (b : Bool)
  | bytes (b : List Nat)
  | date (s : String)
  | datetime (s : String)
  | time (s : String)
  | null
  | unknown (s : String)
deriving DecidableEq

/-- The `Display` impl for `Value` (result.rs lines 43-58). -/
def Value.display : Value → String
  | .string s => s
  | .integer i => toString i
  | .float f => f.render
  | .boolean b => toString b
  | .bytes b => "<" ++ toString b.length ++ " bytes>"
  | .date d => d
  | .datetime dt => dt
  | .time t => t
  | .null => "NULL"
  | .unknown s => s

/-- `Value::is_null` (result.rs lines 62-64). -/
def Value.is_null : Value → Bool
  | .null => true
  | _ => false

/-- Discriminator for the `Unknown` variant (spec vocabulary, used to state
what the decoders do NOT return). -/
def Value.isUnknown : Value → Bool
  | .unknown _ => true
  | _ => false

/-- `sqlterm_core::ColumnInfo` (result.rs lines 14-22). -/
structure ColumnInfo where
  name : String
  data_type : String
  nullable : Bool
  max_length : Option Nat
  precision : Option Nat
  scale : Option Nat
deriving DecidableEq

/-- `sqlterm_core::Row` (result.rs lines 24-27). -/
structure Row where
  values : List Value
deriving DecidableEq

/-- `sqlterm_core::QueryResult` (result.rs lines 4-12).
`execution_time` is the abstract duration. -/
structure QueryResult where
  columns : List ColumnInfo
  rows : List Row
  execution_time : Nat
  total_rows : Nat
  is_truncated : Bool
  truncated_at : Option Nat
deriving DecidableEq

/-- `QueryResult::new` (result.rs lines 69-83): `total_rows = rows.len()`,
never truncated. -/
def QueryResult.new (columns : List ColumnInfo) (rows : List Row)
    (execution_time : Nat) : QueryResult :=
  { columns := columns
    rows := rows
    execution_time := execution_time
    total_rows := rows.length
    is_truncated := false
    truncated_at := none }

/-- `QueryResult::truncated` (result.rs lines 86-109): if `rows.len() > limit`,
truncate `rows` to the first `limit` entries and record `Some(limit)`;
`total_rows` is the caller-supplied count either way. -/
def QueryResult.truncated (columns : List ColumnInfo) (rows : List Row)
    (execution_time : Nat) (total_rows : Nat) (limit : Nat) : QueryResult :=
  let is_truncated := decide (rows.length > limit)
  let rows' := if is_truncated then rows.take limit else rows
  let truncated_at := if is_truncated then some limit else none
  { columns := columns
    rows := rows'
    execution_time := execution_time
    total_rows := total_rows
    is_truncated := is_truncated
    truncated_at := truncated_at }

/-- Rust `str::contains(char)`: the character occurs in the string. -/
def rustContainsChar (s : String) (c : Char) : Bool :=
  s.data.contains c

/-- Character-level worker for `rustReplaceQuote`. -/
def replaceQuoteChars : List Char → List Char
  | [] => []
  | c :: rest =>
    if c = '\"' then '\"' :: '\"' :: replaceQuoteChars rest
    else c :: replaceQuoteChars rest

/-- Rust `s.replace('\"', "\"\"")`: every double-quote character is doubled
(the pattern is a single character, so replacement is per-character). -/
def rustReplaceQuote (s : String) : String :=
  String.mk (replaceQuoteChars s.data)

/-- The per-cell CSV escaping closure inside `QueryResult::to_csv`
(result.rs lines 122-129): quote iff the rendering contains a comma, a double
quote or a newline, doubling internal double quotes. -/
def csvField (v : Value) : String :=
  let s := v.display
  if rustContainsChar s ',' || rustContainsChar s '\"' || rustContainsChar s '\n' then
    "\"" ++ rustReplaceQuote s ++ "\""
  else
    s

/-- `QueryResult::to_csv` (result.rs lines 112-135): header line of column
names, then one line per row, accumulated onto a growing string. -/
def QueryResult.to_csv (r : QueryResult) : String :=
  let headers := r.columns.map (fun c => c.name)
  let csv := String.intercalate "," headers ++ "\n"
  r.rows.foldl
    (fun csv row =>
      let values := row.values.map csvField
      csv ++ String.intercalate "," values ++ "\n")
    csv

/-- The QueryResult invariant claimed in the spec (§3):
`is_truncated == truncated_at.is_some()` and
`rows.len() == truncated_at.unwrap_or(total_rows)`. -/
def queryResultInvariant (r : QueryResult) : Prop :=
  r.is_truncated = r.truncated_at.isSome ∧
  r.rows.length = r.truncated_at.getD r.total_rows

instance (r : QueryResult) : Decidable (queryResultInvariant r) := by
  unfold queryResultInvariant
  infer_instance

/-- C1: `QueryResult::truncated` keeps the first `limit` rows in order, sets
`is_truncated`/`truncated_at` exactly when `rows.len() > limit`, and always
records the caller-supplied `total_rows`. -/
theorem truncated_behaviour (columns : List ColumnInfo) (rows : List Row)
    (execution_time total_rows limit : Nat) :
    (rows.length > limit →
      (QueryResult.truncated columns rows execution_time total_rows limit).rows
          = rows.take limit ∧
      (QueryResult.truncated columns rows execution_time total_rows limit).is_truncated
          = true ∧
      (QueryResult.truncated columns rows execution_time total_rows limit).truncated_at
          = some limit ∧
      (QueryResult.truncated columns rows execution_time total_rows limit).total_rows
          = total_rows) ∧
    (rows.length ≤ limit →
      (QueryResult.truncated columns rows execution_time total_rows limit).rows
          = rows ∧
      (QueryResult.truncated columns rows execution_time total_rows limit).is_truncated
          = false ∧
      (QueryResult.truncated columns rows execution_time total_rows limit).truncated_at
          = none ∧
      (QueryResult.truncated columns rows execution_time total_rows limit).total_rows
          = total_rows) := by
  constructor
  · intro h
    simp [QueryResult.truncated, h]
  · intro h
    simp [QueryResult.truncated, Nat.not_lt.mpr h]

/-- Witness for C1: both branches of `truncated_behaviour` at concrete inputs. -/
theorem truncated_behaviour_witness :
    (QueryResult.truncated [] [Row.mk [], Row.mk []] 0 2 1).rows = [Row.mk []] ∧
    (QueryResult.truncated [] [Row.mk []] 0 1 5).rows = [Row.mk []] :=
  ⟨((truncated_behaviour [] [Row.mk [], Row.mk []] 0 2 1).1 (by decide)).1,
   ((truncated_behaviour [] [Row.mk []] 0 1 5).2 (by decide)).1⟩

/-- C5 counterexample: `QueryResult::truncated` with an empty row list,
`total_rows = 5` and `limit = 3` yields `truncated_at = None` but
`rows.len() = 0 ≠ 5 = total_rows`, violating the claimed invariant. -/
theorem truncated_invariant_counterexample :
    ¬ queryResultInvariant (QueryResult.truncated [] [] 0 5 3) := by
  decide

/-- C5 amended: both constructors always satisfy
`is_truncated == truncated_at.is_some()`; the length equation
`rows.len() == truncated_at.unwrap_or(total_rows)` always holds for `new`,
and holds for `truncated` exactly when the rows were actually truncated or the
caller-supplied `total_rows` equals the retained row count. -/
theorem constructors_invariant (columns : List ColumnInfo) (rows : List Row)
    (execution_time total_rows limit : Nat) :
    queryResultInvariant (QueryResult.new columns rows execution_time) ∧
    ((QueryResult.truncated columns rows execution_time total_rows limit).is_truncated
        = (QueryResult.truncated columns rows execution_time total_rows limit).truncated_at.isSome) ∧
    (rows.length > limit ∨ total_rows = rows.length →
      queryResultInvariant
        (QueryResult.truncated columns rows execution_time total_rows limit)) := by
  refine ⟨⟨rfl, rfl⟩, ?_, ?_⟩
  · by_cases h : rows.length > limit
    · simp [QueryResult.truncated, h]
    · simp [QueryResult.truncated, h]
  · intro h
    rcases h with h | h
    · exact ⟨by simp [QueryResult.truncated, h], by
        simp [QueryResult.truncated, h, List.length_take, Nat.min_eq_left (Nat.le_of_lt h)]⟩
    · by_cases hl : rows.length > limit
      · exact ⟨by simp [QueryResult.truncated, hl], by
          simp [QueryResult.truncated, hl, List.length_take, Nat.min_eq_left (Nat.le_of_lt hl)]⟩
      · exact ⟨by simp [QueryResult.truncated, hl], by
          simp [QueryResult.truncated, hl, h]⟩

/-- Witness for C5 (amended): the truncating branch of `constructors_invariant`
at a concrete input. -/
theorem constructors_invariant_witness :
    queryResultInvariant (QueryResult.truncated [] [Row.mk [], Row.mk []] 0 2 1) :=
  (constructors_invariant [] [Row.mk [], Row.mk []] 0 2 1).2.2 (Or.inl (by decide))

/-- `sqlterm_core::SqlTermError` (error.rs lines 3-37); the `Io` payload is the
rendered error text. -/
inductive SqlTermError where
  | connection (s : String)
  | queryExecution (s : String)
  | query (s : String)
  | notImplemented (s : String)
  | schemaInspection (s : String)
  | authentication (s : String)
  | network (s : String)
  | configuration (s : String)
  | serialization (s : String)
  | io (s : String)
  | unknown (s : String)
deriving DecidableEq

/-- Error-kind discriminator for the `NotImplemented` variant. -/
def SqlTermError.isNotImplemented : SqlTermError → Bool
  | .notImplemented _ => true
  | _ => false

/-- Error-kind discriminator for the `Connection` variant. -/
def SqlTermError.isConnection : SqlTermError → Bool
  | .connection _ => true
  | _ => false

/-- Error-kind discriminator for the `Configuration` variant. -/
def SqlTermError.isConfiguration : SqlTermError → Bool
  | .configuration _ => true
  | _ => false

/-- Error-kind discriminator for the `QueryExecution` variant. -/
def SqlTermError.isQueryExecution : SqlTermError → Bool
  | .queryExecution _ => true
  | _ => false

/-- One raw driver cell, abstracted by the outcome of each `row.try_get::<T>(i)`
probe the query-executor cascades may attempt on it: `none` = the probe errors,
`some v` = it succeeds with payload `v`. `isNull` is what
`row.try_get_raw(i).is_null()` reports (`try_get_raw` always succeeds for an
in-range column index, which is the only way the loops call it).
Signed payloads are the extracted numeric values as `Int`, unsigned as `Nat`;
the `as i64` widenings in the source are value-preserving for every width the
cascades use here. -/
structure RawCell where
  isNull : Bool
  tryString : Option String
  tryI64 : Option Int
  tryI32 : Option Int
  tryI16 : Option Int
  tryI8 : Option Int
  tryU32 : Option Nat
  tryU16 : Option Nat
  tryU8 : Option Nat
  tryF64 : Option F64
  tryF32 : Option F64
  tryBool : Option Bool
deriving DecidableEq

/-- The per-cell conversion of `SqliteQueryExecutor::execute_query`
(sqlterm-sqlite/src/query.rs lines 57-71): probe `String`, `i64`, `f64`,
`bool` in that order; if every probe fails, produce `Value::Null`.
There is no null check and no `Unknown` fallback in this cascade. -/
def sqliteDecodeValue (cell : RawCell) : Value :=
  match cell.tryString with
  | some val => .string val
  | none =>
    match cell.tryI64 with
    | some val => .integer val
    | none =>
      match cell.tryF64 with
      | some val => .float val
      | none =>
        match cell.tryBool with
        | some val => .boolean val
        | none => .null

/-- The ordered fallback arm of `MySqlQueryExecutor::execute_query`
(sqlterm-mysql/src/query.rs lines 167-194): probe `i32`, `i64`, `i16`, `i8`,
`u32`, `u16`, `u8`, `f64`, `f32`, `bool`, `String` in that order, widening to
the 64-bit variants; if every probe fails, produce
`Unknown("Unknown MySQL type: {type_name}")`. -/
def mysqlFallbackDecode (type_name : String) (cell : RawCell) : Value :=
  match cell.tryI32 with
  | some val => .integer val
  | none =>
    match cell.tryI64 with
    | some val => .integer val
    | none =>
      match cell.tryI16 with
      | some val => .integer val
      | none =>
        match cell.tryI8 with
        | some val => .integer val
        | none =>
          match cell.tryU32 with
          | some val => .integer (val : Int)
          | none =>
            match cell.tryU16 with
            | some val => .integer (val : Int)
            | none =>
              match cell.tryU8 with
              | some val => .integer (val : Int)
              | none =>
                match cell.tryF64 with
                | some val => .float val
                | none =>
                  match cell.tryF32 with
                  | some val => .float val
                  | none =>
                    match cell.tryBool with
                    | some val => .boolean val
                    | none =>
                      match cell.tryString with
                      | some val => .string val
                      | none => .unknown ("Unknown MySQL type: " ++ type_name)

/-- The per-cell conversion of `MySqlQueryExecutor::execute_query`
(sqlterm-mysql/src/query.rs lines 56-195): null short-circuit via
`try_get_raw(i).is_null()`, then declared-type dispatch on the MySQL type
name, falling through to the ordered fallback probe for unhandled names. -/
def mysqlDecodeValue (type_name : String) (cell : RawCell) : Value :=
  if cell.isNull then
    .null
  else
    match type_name with
    | "TINYINT" =>
      match cell.tryI8 with
      | some val => .integer val
      | none => .unknown ("Failed to parse " ++ type_name ++ " as i8")
    | "SMALLINT" =>
      match cell.tryI16 with
      | some val => .integer val
      | none => .unknown ("Failed to parse " ++ type_name ++ " as i16")
    | "MEDIUMINT" | "INT" | "INTEGER" =>
      match cell.tryI32 with
      | some val => .integer val
      | none => .unknown ("Failed to parse " ++ type_name ++ " as i32")
    | "BIGINT" =>
      match cell.tryI64 with
      | some val => .integer val
      | none => .unknown ("Failed to parse " ++ type_name ++ " as i64")
    | "FLOAT" =>
      match cell.tryF32 with
      | some val => .float val
      | none => .unknown ("Failed to parse " ++ type_name ++ " as f32")
    | "DOUBLE" =>
      match cell.tryF64 with
      | some val => .float val
      | none => .unknown ("Failed to parse " ++ type_name ++ " as f64")
    | "BOOLEAN" | "BOOL" =>
      match cell.tryBool with
      | some val => .boolean val
      | none => .unknown ("Failed to parse " ++ type_name ++ " as bool")
    | "DECIMAL" | "NUMERIC" =>
      match cell.tryF64 with
      | some val => .float val
      | none =>
        match cell.tryString with
        | some val => .string val
        | none => .unknown ("Failed to parse " ++ type_name ++ " as f64 or String")
    | "VARCHAR" | "CHAR" | "TEXT" | "TINYTEXT" | "MEDIUMTEXT" | "LONGTEXT" | "JSON" =>
      match cell.tryString with
      | some val => .string val
      | none => .unknown ("Failed to parse " ++ type_name ++ " as String")
    | "DATETIME" | "TIMESTAMP" =>
      match cell.tryString with
      | some val => .datetime val
      | none => .unknown ("Failed to parse " ++ type_name ++ " as String")
    | "DATE" =>
      match cell.tryString with
      | some val => .date val
      | none => .unknown ("Failed to parse " ++ type_name ++ " as String")
    | "TIME" =>
      match cell.tryString with
      | some val => .time val
      | none => .unknown ("Failed to parse " ++ type_name ++ " as String")
    | _ => mysqlFallbackDecode type_name cell

/-- Modelled from the spec (§4.1 step 3), for comparison with the source:
the "ordered fallback probe" the spec prescribes, attempting extraction as
32-bit signed integer, 64-bit signed integer, 16-bit signed integer, 8-bit
signed integer, unsigned 32/16/8-bit integer, 64-bit float, 32-bit float,
boolean, text, stopping at the first success and widening to the 64-bit
variants; `none` when every probe fails. -/
def specOrderedFallbackProbe (cell : RawCell) : Option Value :=
  match cell.tryI32 with
  | some val => some (.integer val)
  | none =>
    match cell.tryI64 with
    | some val => some (.integer val)
    | none =>
      match cell.tryI16 with
      | some val => some (.integer val)
      | none =>
        match cell.tryI8 with
        | some val => some (.integer val)
        | none =>
          match cell.tryU32 with
          | some val => some (.integer (val : Int))
          | none =>
            match cell.tryU16 with
            | some val => some (.integer (val : Int))
            | none =>
              match cell.tryU8 with
              | some val => some (.integer (val : Int))
              | none =>
                match cell.tryF64 with
                | some val => some (.float val)
                | none =>
                  match cell.tryF32 with
                  | some val => some (.float val)
                  | none =>
                    match cell.tryBool with
                    | some val => some (.boolean val)
                    | none =>
                      match cell.tryString with
                      | some val => some (.string val)
                      | none => none

/-- A raw cell on which every probe fails. -/
def emptyRawCell : RawCell :=
  { isNull := false
    tryString := none
    tryI64 := none
    tryI32 := none
    tryI16 := none
    tryI8 := none
    tryU32 := none
    tryU16 := none
    tryU8 := none
    tryF64 := none
    tryF32 := none
    tryBool := none }

/-- Every typed probe of `cell` fails. -/
def allProbesFail (cell : RawCell) : Prop :=
  cell.tryString = none ∧ cell.tryI64 = none ∧ cell.tryI32 = none ∧
  cell.tryI16 = none ∧ cell.tryI8 = none ∧ cell.tryU32 = none ∧
  cell.tryU16 = none ∧ cell.tryU8 = none ∧ cell.tryF64 = none ∧
  cell.tryF32 = none ∧ cell.tryBool = none

instance (cell : RawCell) : Decidable (allProbesFail cell) := by
  unfold allProbesFail
  infer_instance

/-- The declared MySQL type names handled by the dispatch arms of
`MySqlQueryExecutor::execute_query` before its default fallback. -/
def handledMySqlTypeNames : List String :=
  ["TINYINT", "SMALLINT", "MEDIUMINT", "INT", "INTEGER", "BIGINT",
   "FLOAT", "DOUBLE", "BOOLEAN", "BOOL", "DECIMAL", "NUMERIC",
   "VARCHAR", "CHAR", "TEXT", "TINYTEXT", "MEDIUMTEXT", "LONGTEXT", "JSON",
   "DATETIME", "TIMESTAMP", "DATE", "TIME"]

/-- C2 counterexample: a SQLite cell on which every probe fails decodes to
`Value::Null`, not to a diagnostic `Value::Unknown` — the SQLite cascade has
no `Unknown` fallback, refuting the claim for that backend. -/
theorem sqlite_exhausted_not_unknown :
    sqliteDecodeValue emptyRawCell = Value.null ∧
    (sqliteDecodeValue emptyRawCell).isUnknown = false := by
  decide

/-- C2 amended: when every typed probe fails on a non-null cell, the MySQL
cascade returns `Value::Unknown` with a diagnostic containing the declared
type name (and no error is raised for the cell), while the SQLite cascade
returns `Value::Null` with no diagnostic. -/
theorem decode_exhausted_probes (type_name : String) (cell : RawCell)
    (hnull : cell.isNull = false) (hfail : allProbesFail cell) :
    (∃ pre post, mysqlDecodeValue type_name cell
        = Value.unknown (pre ++ type_name ++ post)) ∧
    sqliteDecodeValue cell = Value.null := by
  obtain ⟨hs, h64, h32, h16, h8, hu32, hu16, hu8, hf64, hf32, hb⟩ := hfail
  constructor
  · unfold mysqlDecodeValue
    rw [if_neg (by simp [hnull])]
    split
    all_goals simp only [mysqlFallbackDecode, hs, h64, h32, h16, h8,
      hu32, hu16, hu8, hf64, hf32, hb]
    all_goals first
      | exact ⟨_, _, rfl⟩
      | exact ⟨"Unknown MySQL type: ", "", by rw [String.append_empty]⟩
  · simp [sqliteDecodeValue, hs, h64, hf64, hb]

/-- Witness for C2 (amended): `decode_exhausted_probes` at a concrete
unhandled type name and the all-probes-fail cell. -/
theorem decode_exhausted_probes_witness :
    (∃ pre post, mysqlDecodeValue "GEOMETRY" emptyRawCell
        = Value.unknown (pre ++ "GEOMETRY" ++ post)) ∧
    sqliteDecodeValue emptyRawCell = Value.null :=
  decode_exhausted_probes "GEOMETRY" emptyRawCell (by decide) (by decide)

/-- C3 counterexample: on a cell where both the text probe and the 32-bit
integer probe succeed, the spec's ordered fallback probe yields `Integer(5)`
but the SQLite cascade yields `String("x")` — SQLite does not attempt
extraction in the claimed priority order. -/
theorem sqlite_probe_order_counterexample :
    specOrderedFallbackProbe
        { emptyRawCell with tryString := some "x", tryI32 := some 5 }
        = some (Value.integer 5) ∧
    sqliteDecodeValue
        { emptyRawCell with tryString := some "x", tryI32 := some 5 }
        = Value.string "x" := by
  decide

/-- C3 amended: the MySQL default fallback arm implements exactly the spec's
ordered fallback probe (i32, i64, i16, i8, u32, u16, u8, f64, f32, bool,
text, first success wins, integers/floats widened to 64 bit), and is what the
MySQL cascade runs on every non-null cell with an unhandled declared type
name; the SQLite backend instead probes text, 64-bit integer, 64-bit float,
boolean in that order, and on it a cell holding the literal 42 decodes to
`Integer(42)` while a cell holding "hello" decodes to `String("hello")`. -/
theorem ordered_fallback_probe_behaviour :
    (∀ (type_name : String) (cell : RawCell),
      mysqlFallbackDecode type_name cell
        = match specOrderedFallbackProbe cell with
          | some v => v
          | none => Value.unknown ("Unknown MySQL type: " ++ type_name)) ∧
    (∀ (type_name : String), type_name ∉ handledMySqlTypeNames →
      ∀ (cell : RawCell), cell.isNull = false →
        mysqlDecodeValue type_name cell = mysqlFallbackDecode type_name cell) ∧
    sqliteDecodeValue { emptyRawCell with tryI64 := some 42 } = Value.integer 42 ∧
    sqliteDecodeValue { emptyRawCell with tryString := some "hello" }
        = Value.string "hello" := by
  refine ⟨?_, ?_, by decide, by decide⟩
  · intro type_name cell
    rcases cell with ⟨n, s, i64, i32, i16, i8, u32, u16, u8, f64, f32, b⟩
    cases i32 <;> cases i64 <;> cases i16 <;> cases i8 <;> cases u32 <;>
      cases u16 <;> cases u8 <;> cases f64 <;> cases f32 <;> cases b <;>
      cases s <;> rfl
  · intro type_name hmem cell hnull
    unfold mysqlDecodeValue
    rw [if_neg (by simp [hnull])]
    split
    all_goals first
      | rfl
      | (exfalso; simp [handledMySqlTypeNames] at hmem)

/-- Witness for C3 (amended): the fallthrough equation of
`ordered_fallback_probe_behaviour` at a concrete unhandled type name. -/
theorem ordered_fallback_probe_behaviour_witness :
    mysqlDecodeValue "GEOMETRY"
        { emptyRawCell with tryI32 := some 7 }
      = mysqlFallbackDecode "GEOMETRY" { emptyRawCell with tryI32 := some 7 } :=
  ordered_fallback_probe_behaviour.2.1 "GEOMETRY" (by decide)
    { emptyRawCell with tryI32 := some 7 } (by decide)

/-- C4 counterexample: the SQLite cascade performs no null check, so on a cell
the backend reports as null but whose text probe (spuriously) succeeds, it
returns the probed string rather than `Value::Null`. -/
theorem sqlite_no_null_short_circuit :
    sqliteDecodeValue { emptyRawCell with isNull := true, tryString := some "spurious" }
        = Value.string "spurious" ∧
    sqliteDecodeValue { emptyRawCell with isNull := true, tryString := some "spurious" }
        ≠ Value.null := by
  decide

/-- C4 amended: the MySQL cascade checks the raw null marker before any typed
probe and returns `Value::Null` for every null cell regardless of declared
type; the SQLite cascade has no null check and returns `Value::Null` for a
cell only because every probe in its chain fails on it. -/
theorem null_cell_decoding (type_name : String) (cell : RawCell) :
    (cell.isNull = true → mysqlDecodeValue type_name cell = Value.null) ∧
    (allProbesFail cell → sqliteDecodeValue cell = Value.null) := by
  constructor
  · intro h
    simp [mysqlDecodeValue, h]
  · intro hfail
    obtain ⟨hs, h64, _, _, _, _, _, _, hf64, _, hb⟩ := hfail
    simp [sqliteDecodeValue, hs, h64, hf64, hb]

/-- Witness for C4 (amended): `null_cell_decoding` at a concrete null cell and
a concrete cell with every probe failing. -/
theorem null_cell_decoding_witness :
    mysqlDecodeValue "TEXT" { emptyRawCell with isNull := true } = Value.null ∧
    sqliteDecodeValue emptyRawCell = Value.null :=
  ⟨(null_cell_decoding "TEXT" { emptyRawCell with isNull := true }).1 (by decide),
   (null_cell_decoding "TEXT" emptyRawCell).2 (by decide)⟩

/-- `String.join (x :: xs) = x ++ String.join xs`, proved via the underlying
left fold. -/
theorem string_foldl_append (l : List String) (init : String) :
    List.foldl (fun r s => r ++ s) init l = init ++ String.join l := by
  induction l generalizing init with
  | nil => exact (String.append_empty init).symm
  | cons x xs ih =>
    rw [List.foldl_cons, ih]
    have hjoin : String.join (x :: xs) = x ++ String.join xs := by
      have h0 : String.join (x :: xs)
          = List.foldl (fun r s => r ++ s) ("" ++ x) xs := rfl
      rw [h0, String.empty_append, ih]
    rw [hjoin, String.append_assoc]

/-- A left fold that appends `g x ++ sep`-style pieces onto an accumulator is
the accumulator followed by the joined pieces. -/
theorem foldl_append_join {α : Type} (g : α → String) (l : List α) (init : String) :
    List.foldl (fun acc x => acc ++ g x) init l = init ++ String.join (l.map g) := by
  induction l generalizing init with
  | nil => exact (String.append_empty init).symm
  | cons x xs ih =>
    rw [List.foldl_cons, ih, List.map_cons]
    have hjoin : String.join (g x :: xs.map g) = g x ++ String.join (xs.map g) := by
      have h0 : String.join (g x :: xs.map g)
          = List.foldl (fun r s => r ++ s) ("" ++ g x) (xs.map g) := rfl
      rw [h0, String.empty_append, string_foldl_append]
    rw [hjoin, String.append_assoc]

/-- C9: the CSV export is the header row (column names joined by commas)
followed by one line per row, each line ending in a newline; each value's
rendering is quoted with internal quotes doubled when it contains a comma,
a double quote or a newline, and is emitted verbatim otherwise. -/
theorem to_csv_format (r : QueryResult) :
    (r.to_csv
      = String.intercalate "," (r.columns.map fun c => c.name) ++ "\n"
        ++ String.join (r.rows.map fun row =>
             String.intercalate "," (row.values.map csvField) ++ "\n")) ∧
    ∀ v : Value,
      ((rustContainsChar v.display ',' || rustContainsChar v.display '\"'
          || rustContainsChar v.display '\n') = true →
        csvField v = "\"" ++ rustReplaceQuote v.display ++ "\"") ∧
      ((rustContainsChar v.display ',' || rustContainsChar v.display '\"'
          || rustContainsChar v.display '\n') = false →
        csvField v = v.display) := by
  constructor
  · show List.foldl
        (fun csv row =>
          csv ++ String.intercalate "," (row.values.map csvField) ++ "\n")
        (String.intercalate "," (r.columns.map fun c => c.name) ++ "\n") r.rows
      = _
    have hfun : (fun (csv : String) (row : Row) =>
          csv ++ String.intercalate "," (row.values.map csvField) ++ "\n")
        = fun csv row =>
            csv ++ (String.intercalate "," (row.values.map csvField) ++ "\n") := by
      funext csv row
      rw [String.append_assoc]
    rw [hfun, foldl_append_join]
  · intro v
    constructor
    · intro h
      simp [csvField, h]
    · intro h
      simp [csvField, h]

/-- Witness for C9: the quoting characterization of `to_csv_format` at the
concrete values from the spec scenario. -/
theorem to_csv_format_witness :
    csvField (Value.string "a,b") = "\"a,b\"" ∧
    csvField (Value.string "ab") = "ab" :=
  ⟨((to_csv_format (QueryResult.new [] [] 0)).2 (Value.string "a,b")).1 (by decide),
   ((to_csv_format (QueryResult.new [] [] 0)).2 (Value.string "ab")).2 (by decide)⟩

/-- `sqlterm_core::Database` (schema.rs lines 5-11). -/
structure Database where
  name : String
  charset : Option String
  collation : Option String
  size : Option Nat
deriving DecidableEq

/-- `sqlterm_core::TableType` (schema.rs lines 23-29). -/
inductive TableType where
  | table
  | view
  | materializedView
  | temporary
deriving DecidableEq

/-- `sqlterm_core::Table` (schema.rs lines 13-21). -/
structure Table where
  name : String
  schema : Option String
  table_type : TableType
  row_count : Option Nat
  size : Option Nat
  comment : Option String
deriving DecidableEq

/-- `sqlterm_core::Column` (schema.rs lines 31-45). -/
structure Column where
  name : String
  data_type : String
  nullable : Bool
  default_value : Option String
  is_primary_key : Bool
  is_foreign_key : Bool
  is_unique : Bool
  is_auto_increment : Bool
  max_length : Option Nat
  precision : Option Nat
  scale : Option Nat
  comment : Option String
deriving DecidableEq

/-- `sqlterm_core::Index` (schema.rs lines 47-55). -/
structure Index where
  name : String
  table_name : String
  columns : List String
  is_unique : Bool
  is_primary : Bool
  index_type : String
deriving DecidableEq

/-- `sqlterm_core::ForeignKey` (schema.rs lines 57-66). -/
structure ForeignKey where
  name : String
  table_name : String
  column_name : String
  referenced_table : String
  referenced_column : String
  on_delete : Option String
  on_update : Option String
deriving DecidableEq

/-- `sqlterm_core::TableStatistics` (schema.rs lines 77-83). -/
structure TableStatistics where
  row_count : Nat
  size_bytes : Option Nat
  last_updated : Option String
  auto_increment_value : Option Nat
deriving DecidableEq

/-- `sqlterm_core::TableDetails` (schema.rs lines 68-75). -/
structure TableDetails where
  table : Table
  columns : List Column
  indexes : List Index
  foreign_keys : List ForeignKey
  statistics : TableStatistics
deriving DecidableEq

/-- The `SchemaInspector` trait (schema.rs lines 85-107): one record of the
seven required async operations, each modelled as a pure `Except`-valued
function of the source arguments. -/
structure SchemaInspector where
  list_databases : Except SqlTermError (List Database)
  list_tables : Option String → Except SqlTermError (List Table)
  describe_table : String → Option String → Except SqlTermError (List Column)
  list_indexes : String → Option String → Except SqlTermError (List Index)
  list_foreign_keys : String → Option String → Except SqlTermError (List ForeignKey)
  get_table_row_count : String → Option String → Except SqlTermError Nat
  table_exists : String → Option String → Except SqlTermError Bool

/-- The composed default `SchemaInspector::get_table_details`
(schema.rs lines 109-138): bare `Table` record, then `describe_table`,
`list_indexes`, `list_foreign_keys`, `get_table_row_count` in order, each
behind the `?` operator, assembled into a `TableDetails`. -/
def SchemaInspector.get_table_details (self : SchemaInspector)
    (table_name : String) (schema : Option String) :
    Except SqlTermError TableDetails :=
  let table_info : Table :=
    { name := table_name
      schema := schema
      table_type := TableType.table
      row_count := none
      size := none
      comment := none }
  do
    let columns ← self.describe_table table_name schema
    let indexes ← self.list_indexes table_name schema
    let foreign_keys ← self.list_foreign_keys table_name schema
    let row_count ← self.get_table_row_count table_name schema
    let statistics : TableStatistics :=
      { row_count := row_count
        size_bytes := none
        last_updated := none
        auto_increment_value := none }
    pure
      { table := table_info
        columns := columns
        indexes := indexes
        foreign_keys := foreign_keys
        statistics := statistics }

/-- C6: the composed `get_table_details` runs `describe_table`,
`list_indexes`, `list_foreign_keys`, `get_table_row_count` in that order,
short-circuits on the first error returning it untouched (the inspector is
arbitrary, so a failing step makes the result independent of every later
step), and on full success assembles the bare `Table` plus the four results. -/
theorem get_table_details_composition (insp : SchemaInspector)
    (table_name : String) (schema : Option String) :
    (∀ e, insp.describe_table table_name schema = .error e →
      insp.get_table_details table_name schema = .error e) ∧
    (∀ cols e, insp.describe_table table_name schema = .ok cols →
      insp.list_indexes table_name schema = .error e →
      insp.get_table_details table_name schema = .error e) ∧
    (∀ cols idxs e, insp.describe_table table_name schema = .ok cols →
      insp.list_indexes table_name schema = .ok idxs →
      insp.list_foreign_keys table_name schema = .error e →
      insp.get_table_details table_name schema = .error e) ∧
    (∀ cols idxs fks e, insp.describe_table table_name schema = .ok cols →
      insp.list_indexes table_name schema = .ok idxs →
      insp.list_foreign_keys table_name schema = .ok fks →
      insp.get_table_row_count table_name schema = .error e →
      insp.get_table_details table_name schema = .error e) ∧
    (∀ cols idxs fks rc, insp.describe_table table_name schema = .ok cols →
      insp.list_indexes table_name schema = .ok idxs →
      insp.list_foreign_keys table_name schema = .ok fks →
      insp.get_table_row_count table_name schema = .ok rc →
      insp.get_table_details table_name schema = .ok
        { table :=
            { name := table_name
              schema := schema
              table_type := TableType.table
              row_count := none
              size := none
              comment := none }
          columns := cols
          indexes := idxs
          foreign_keys := fks
          statistics :=
            { row_count := rc
              size_bytes := none
              last_updated := none
              auto_increment_value := none } }) := by
  refine ⟨?_, ?_, ?_, ?_, ?_⟩
  · intro e h
    simp [SchemaInspector.get_table_details, h, bind, Except.bind]
  · intro cols e h1 h2
    simp [SchemaInspector.get_table_details, h1, h2, bind, Except.bind]
  · intro cols idxs e h1 h2 h3
    simp [SchemaInspector.get_table_details, h1, h2, h3, bind, Except.bind,
      Functor.map, Except.map]
  · intro cols idxs fks e h1 h2 h3 h4
    simp [SchemaInspector.get_table_details, h1, h2, h3, h4, bind, Except.bind,
      Functor.map, Except.map]
  · intro cols idxs fks rc h1 h2 h3 h4
    simp [SchemaInspector.get_table_details, h1, h2, h3, h4, bind, Except.bind,
      Functor.map, Except.map, pure, Except.pure]

/-- A concrete inspector whose `describe_table` fails and whose later steps
would succeed, used to witness the short-circuit composition. -/
def failingDescribeInspector : SchemaInspector :=
  { list_databases := .ok []
    list_tables := fun _ => .ok []
    describe_table := fun _ _ => .error (.schemaInspection "describe failed")
    list_indexes := fun _ _ => .ok []
    list_foreign_keys := fun _ _ => .ok []
    get_table_row_count := fun _ _ => .ok 0
    table_exists := fun _ _ => .ok true }

/-- Witness for C6: the first short-circuit of `get_table_details_composition`
at a concrete inspector. -/
theorem get_table_details_composition_witness :
    failingDescribeInspector.get_table_details "users" none
      = .error (.schemaInspection "describe failed") :=
  (get_table_details_composition failingDescribeInspector "users" none).1
    (.schemaInspection "describe failed") rfl

/-- Placeholder for the `PreparedStatement` trait object; the source declares
the trait but contains no implementor. -/
structure PreparedStatement where
  deriving DecidableEq

/-- Placeholder for the `Transaction` trait object; the source declares the
trait but contains no implementor. -/
structure Transaction where
  deriving DecidableEq

/-- `SqliteQueryExecutor::prepare_statement` (sqlterm-sqlite/src/query.rs
lines 102-105). -/
def SqliteQueryExecutor.prepare_statement (_sql : String) :
    Except SqlTermError PreparedStatement :=
  .error (.queryExecution "Prepared statements not yet implemented")

/-- `SqliteQueryExecutor::begin_transaction` (sqlterm-sqlite/src/query.rs
lines 107-110). -/
def SqliteQueryExecutor.begin_transaction :
    Except SqlTermError Transaction :=
  .error (.queryExecution "Transactions not yet implemented")

/-- `MySqlQueryExecutor::prepare_statement` (sqlterm-mysql/src/query.rs
lines 227-230). -/
def MySqlQueryExecutor.prepare_statement (_sql : String) :
    Except SqlTermError PreparedStatement :=
  .error (.queryExecution "Prepared statements not yet implemented")

/-- `MySqlQueryExecutor::begin_transaction` (sqlterm-mysql/src/query.rs
lines 232-235). -/
def MySqlQueryExecutor.begin_transaction :
    Except SqlTermError Transaction :=
  .error (.queryExecution "Transactions not yet implemented")

/-- `PostgresQueryExecutor::prepare_statement` (sqlterm-postgres/src/query.rs
lines 212-214). -/
def PostgresQueryExecutor.prepare_statement (_sql : String) :
    Except SqlTermError PreparedStatement :=
  .error (.queryExecution "Prepared statements not yet implemented")

/-- `PostgresQueryExecutor::begin_transaction` (sqlterm-postgres/src/query.rs
lines 217-219). -/
def PostgresQueryExecutor.begin_transaction :
    Except SqlTermError Transaction :=
  .error (.queryExecution "Transactions not yet implemented")

/-- `MySqlConnection::prepare_statement` in the `QueryExecutor` impl
(sqlterm-mysql/src/connection.rs lines 274-277). -/
def MySqlConnection.prepare_statement (_sql : String) :
    Except SqlTermError PreparedStatement :=
  .error (.notImplemented "Prepared statements not yet implemented for MySQL")

/-- `MySqlConnection::begin_transaction` in the `QueryExecutor` impl
(sqlterm-mysql/src/connection.rs lines 279-282). -/
def MySqlConnection.begin_transaction :
    Except SqlTermError Transaction :=
  .error (.notImplemented "Transactions not yet implemented for MySQL")

/-- C7 counterexample: the SQLite query executor's `prepare_statement`
returns an error of the `QueryExecution` kind, not the `NotImplemented`
kind, refuting the claim that every backend signals capability absence
through `NotImplemented`. -/
theorem prepare_statement_kind_counterexample :
    SqliteQueryExecutor.prepare_statement "SELECT 1"
        = .error (.queryExecution "Prepared statements not yet implemented") ∧
    (SqlTermError.queryExecution "Prepared statements not yet implemented").isNotImplemented
        = false := by
  exact ⟨rfl, rfl⟩

/-- C7 amended: every backend's `prepare_statement` and `begin_transaction`
always return a "not yet implemented" error and never succeed; the MySQL
connection-level implementations use the `NotImplemented` error kind, while
the three query-executor implementations use the `QueryExecution` kind. -/
theorem not_implemented_endpoints (sql : String) :
    (SqliteQueryExecutor.prepare_statement sql
        = .error (.queryExecution "Prepared statements not yet implemented")) ∧
    (SqliteQueryExecutor.begin_transaction
        = .error (.queryExecution "Transactions not yet implemented")) ∧
    (MySqlQueryExecutor.prepare_statement sql
        = .error (.queryExecution "Prepared statements not yet implemented")) ∧
    (MySqlQueryExecutor.begin_transaction
        = .error (.queryExecution "Transactions not yet implemented")) ∧
    (PostgresQueryExecutor.prepare_statement sql
        = .error (.queryExecution "Prepared statements not yet implemented")) ∧
    (PostgresQueryExecutor.begin_transaction
        = .error (.queryExecution "Transactions not yet implemented")) ∧
    (MySqlConnection.prepare_statement sql
        = .error (.notImplemented "Prepared statements not yet implemented for MySQL")) ∧
    (MySqlConnection.begin_transaction
        = .error (.notImplemented "Transactions not yet implemented for MySQL")) ∧
    (SqlTermError.queryExecution "Prepared statements not yet implemented").isQueryExecution
        = true ∧
    (SqlTermError.notImplemented "Prepared statements not yet implemented for MySQL").isNotImplemented
        = true :=
  ⟨rfl, rfl, rfl, rfl, rfl, rfl, rfl, rfl, rfl, rfl⟩

/-- `sqlterm_core::DatabaseType` (connection.rs lines 27-32). -/
inductive DatabaseType where
  | mysql
  | postgresql
  | sqlite
deriving DecidableEq

/-- `sqlterm_core::SshConfig` (connection.rs lines 18-25). -/
structure SshConfig where
  host : String
  port : Nat
  username : String
  private_key_path : Option String
  password : Option String
deriving DecidableEq

/-- `sqlterm_core::ConnectionConfig` (connection.rs lines 5-16). -/
structure ConnectionConfig where
  name : String
  database_type : DatabaseType
  host : String
  port : Nat
  database : String
  username : String
  password : Option String
  ssl : Bool
  ssh_tunnel : Option SshConfig
deriving DecidableEq

/-- `MySqlConnection::build_connection_string`
(sqlterm-mysql/src/connection.rs lines 16-41). -/
def MySqlConnection.build_connection_string (config : ConnectionConfig) : String :=
  let url :=
    match config.password with
    | some password =>
      "mysql://" ++ config.username ++ ":" ++ password ++ "@" ++ config.host
        ++ ":" ++ toString config.port ++ "/" ++ config.database
    | none =>
      "mysql://" ++ config.username ++ "@" ++ config.host
        ++ ":" ++ toString config.port ++ "/" ++ config.database
  if config.ssl then url ++ "?ssl-mode=required" else url

/-- `SqliteConnection::build_connection_string`
(sqlterm-sqlite/src/connection.rs lines 14-17): the database field is the
file path. -/
def SqliteConnection.build_connection_string (config : ConnectionConfig) : String :=
  "sqlite:" ++ config.database

/-- `PostgresConnection::build_connection_string`
(sqlterm-postgres/src/connection.rs lines 15-42). -/
def PostgresConnection.build_connection_string (config : ConnectionConfig) : String :=
  let url :=
    match config.password with
    | some password =>
      "postgresql://" ++ config.username ++ ":" ++ password ++ "@" ++ config.host
        ++ ":" ++ toString config.port ++ "/" ++ config.database
    | none =>
      "postgresql://" ++ config.username ++ "@" ++ config.host
        ++ ":" ++ toString config.port ++ "/" ++ config.database
  if config.ssl then url ++ "?sslmode=require" else url ++ "?sslmode=disable"

/-- `MySqlConnection::connect` (sqlterm-mysql/src/connection.rs lines 46-64):
reject a config whose declared backend kind is not MySQL with a
`Configuration` error before any pool is opened; otherwise open the pool
(`pool_connect` is the driver's connect primitive, its failure text mapped
into a `Connection` error). The connection value is the `(pool, config,
connected)` triple the source constructs. -/
def MySqlConnection.connect {Pool : Type} (config : ConnectionConfig)
    (pool_connect : String → Except String Pool) :
    Except SqlTermError (Pool × ConnectionConfig × Bool) :=
  if config.database_type ≠ DatabaseType.mysql then
    .error (.configuration "Invalid database type for MySQL connection")
  else
    match pool_connect (MySqlConnection.build_connection_string config) with
    | .error e => .error (.connection e)
    | .ok pool => .ok (pool, config, true)

/-- `SqliteConnection::connect` (sqlterm-sqlite/src/connection.rs
lines 22-40), modelled like `MySqlConnection.connect`. -/
def SqliteConnection.connect {Pool : Type} (config : ConnectionConfig)
    (pool_connect : String → Except String Pool) :
    Except SqlTermError (Pool × ConnectionConfig × Bool) :=
  if config.database_type ≠ DatabaseType.sqlite then
    .error (.configuration "Invalid database type for SQLite connection")
  else
    match pool_connect (SqliteConnection.build_connection_string config) with
    | .error e => .error (.connection e)
    | .ok pool => .ok (pool, config, true)

/-- `PostgresConnection::connect` (sqlterm-postgres/src/connection.rs
lines 47-65), modelled like `MySqlConnection.connect`. -/
def PostgresConnection.connect {Pool : Type} (config : ConnectionConfig)
    (pool_connect : String → Except String Pool) :
    Except SqlTermError (Pool × ConnectionConfig × Bool) :=
  if config.database_type ≠ DatabaseType.postgresql then
    .error (.configuration "Invalid database type for PostgreSQL connection")
  else
    match pool_connect (PostgresConnection.build_connection_string config) with
    | .error e => .error (.connection e)
    | .ok pool => .ok (pool, config, true)

/-- A config declaring the SQLite backend, used against the MySQL adapter. -/
def sqliteTypedConfig : ConnectionConfig :=
  { name := "c"
    database_type := DatabaseType.sqlite
    host := "localhost"
    port := 3306
    database := "db"
    username := "u"
    password := none
    ssl := false
    ssh_tunnel := none }

/-- A config declaring the MySQL backend, used against the other adapters. -/
def mysqlTypedConfig : ConnectionConfig :=
  { name := "c"
    database_type := DatabaseType.mysql
    host := "localhost"
    port := 3306
    database := "db"
    username := "u"
    password := none
    ssl := false
    ssh_tunnel := none }

/-- C8 counterexample: `MySqlConnection::connect` on a config declaring the
SQLite backend fails with a `Configuration`-kind error, not a
`Connection`-kind error. -/
theorem connect_mismatch_kind_counterexample :
    @MySqlConnection.connect Unit sqliteTypedConfig
        (fun _ => .error "pool connect never reached")
      = .error (.configuration "Invalid database type for MySQL connection") ∧
    (SqlTermError.configuration "Invalid database type for MySQL connection").isConnection
      = false := by
  exact ⟨rfl, rfl⟩

/-- C8 amended: each adapter's `connect` rejects a config whose declared
backend kind does not match it with a `Configuration` error, independently
of the pool-connect primitive (which is therefore never invoked). -/
theorem connect_backend_mismatch {Pool : Type} (config : ConnectionConfig)
    (pool_connect : String → Except String Pool) :
    (config.database_type ≠ DatabaseType.mysql →
      MySqlConnection.connect config pool_connect
        = .error (.configuration "Invalid database type for MySQL connection")) ∧
    (config.database_type ≠ DatabaseType.sqlite →
      SqliteConnection.connect config pool_connect
        = .error (.configuration "Invalid database type for SQLite connection")) ∧
    (config.database_type ≠ DatabaseType.postgresql →
      PostgresConnection.connect config pool_connect
        = .error (.configuration "Invalid database type for PostgreSQL connection")) := by
  refine ⟨?_, ?_, ?_⟩
  · intro h
    simp [MySqlConnection.connect, h]
  · intro h
    simp [SqliteConnection.connect, h]
  · intro h
    simp [PostgresConnection.connect, h]

/-- Witness for C8 (amended): `connect_backend_mismatch` discharged at
concrete mismatching configs for all three adapters. -/
theorem connect_backend_mismatch_witness :
    (@MySqlConnection.connect Unit sqliteTypedConfig (fun _ => .ok ())
        = .error (.configuration "Invalid database type for MySQL connection")) ∧
    (@SqliteConnection.connect Unit mysqlTypedConfig (fun _ => .ok ())
        = .error (.configuration "Invalid database type for SQLite connection")) ∧
    (@PostgresConnection.connect Unit mysqlTypedConfig (fun _ => .ok ())
        = .error (.configuration "Invalid database type for PostgreSQL connection")) :=
  ⟨(connect_backend_mismatch sqliteTypedConfig (fun _ => .ok ())).1 (by decide),
   (connect_backend_mismatch mysqlTypedConfig (fun _ => .ok ())).2.1 (by decide),
   (connect_backend_mismatch mysqlTypedConfig (fun _ => .ok ())).2.2 (by decide)⟩

/-- One raw driver cell for the `QueryExecutor` impl on `MySqlConnection`
(sqlterm-mysql/src/connection.rs lines 169-244), whose probes are
`row.try_get::<Option<T>, _>(col.name)`: the outer `Option` is probe
success/failure, the inner one is SQL NULL versus a value. The two chrono
date-time payloads are abstracted by the formatted text the source produces
from them. -/
structure MySqlConnRawCell where
  optI32 : Option (Option Int)
  optI64 : Option (Option Int)
  optI16 : Option (Option Int)
  optI8 : Option (Option Int)
  optU32 : Option (Option Nat)
  optU64 : Option (Option Nat)
  optF64 : Option (Option F64)
  optF32 : Option (Option F64)
  optBool : Option (Option Bool)
  optNaiveDateTime : Option (Option String)
  optDateTimeUtc : Option (Option String)
  optString : Option (Option String)
deriving DecidableEq

/-- Rust `v as i64` on a `u64` value `v < 2^64`: two's-complement wrap. -/
def u64_as_i64 (v : Nat) : Int :=
  if v < 2 ^ 63 then (v : Int) else (v : Int) - 2 ^ 64

/-- The per-cell conversion of the `QueryExecutor` impl on `MySqlConnection`
(sqlterm-mysql/src/connection.rs lines 174-238): probe `Option<i32>`,
`Option<i64>`, `Option<i16>`, `Option<i8>`, `Option<u32>`, `Option<u64>`,
`Option<f64>`, `Option<f32>`, `Option<bool>`, the two chrono date-times and
`Option<String>` in order; an inner `None` is SQL NULL; if every probe
fails, produce `String("Unknown type: {data_type}")`. The `u64` arm performs
the `val as i64` wrap. -/
def mysqlConnDecodeValue (data_type : String) (cell : MySqlConnRawCell) : Value :=
  match cell.optI32 with
  | some (some v) => .integer v
  | some none => .null
  | none =>
  match cell.optI64 with
  | some (some v) => .integer v
  | some none => .null
  | none =>
  match cell.optI16 with
  | some (some v) => .integer v
  | some none => .null
  | none =>
  match cell.optI8 with
  | some (some v) => .integer v
  | some none => .null
  | none =>
  match cell.optU32 with
  | some (some v) => .integer (v : Int)
  | some none => .null
  | none =>
  match cell.optU64 with
  | some (some v) => .integer (u64_as_i64 v)
  | some none => .null
  | none =>
  match cell.optF64 with
  | some (some v) => .float v
  | some none => .null
  | none =>
  match cell.optF32 with
  | some (some v) => .float v
  | some none => .null
  | none =>
  match cell.optBool with
  | some (some v) => .boolean v
  | some none => .null
  | none =>
  match cell.optNaiveDateTime with
  | some (some v) => .string v
  | some none => .null
  | none =>
  match cell.optDateTimeUtc with
  | some (some v) => .string v
  | some none => .null
  | none =>
  match cell.optString with
  | some (some v) => .string v
  | some none => .null
  | none => .string ("Unknown type: " ++ data_type)

/-- A `MySqlConnRawCell` on which every probe fails. -/
def emptyConnCell : MySqlConnRawCell :=
  { optI32 := none
    optI64 := none
    optI16 := none
    optI8 := none
    optU32 := none
    optU64 := none
    optF64 := none
    optF32 := none
    optBool := none
    optNaiveDateTime := none
    optDateTimeUtc := none
    optString := none }

/-- C10: when the earlier probes fail and the cell extracts as an unsigned
64-bit value `v` above the signed 64-bit maximum, the MySQL connection
cascade produces `Integer(v - 2^64)`: the two's-complement `as i64` wrap,
congruent to `v` modulo `2^64` and negative (hence neither saturated at
`i64::MAX`, nor rejected, nor degraded to `Unknown`). -/
theorem u64_overflow_wrap (data_type : String) (cell : MySqlConnRawCell) (v : Nat)
    (h32 : cell.optI32 = none) (h64 : cell.optI64 = none)
    (h16 : cell.optI16 = none) (h8 : cell.optI8 = none)
    (hu32 : cell.optU32 = none) (hu64 : cell.optU64 = some (some v))
    (hlo : 2 ^ 63 ≤ v) (hhi : v < 2 ^ 64) :
    mysqlConnDecodeValue data_type cell = Value.integer ((v : Int) - 2 ^ 64) ∧
    Int.ModEq (2 ^ 64) ((v : Int) - 2 ^ 64) (v : Int) ∧
    (v : Int) - 2 ^ 64 < 0 := by
  refine ⟨?_, ?_, ?_⟩
  · simp [mysqlConnDecodeValue, h32, h64, h16, h8, hu32, hu64, u64_as_i64]
    omega
  · unfold Int.ModEq
    omega
  · have hv : (v : Int) < 2 ^ 64 := by exact_mod_cast hhi
    omega

/-- Witness for C10: `u64_overflow_wrap` at `v = 2^63` on a concrete cell. -/
theorem u64_overflow_wrap_witness :
    mysqlConnDecodeValue "BIGINT UNSIGNED"
        { emptyConnCell with optU64 := some (some (2 ^ 63)) }
      = Value.integer (((2 ^ 63 : Nat) : Int) - 2 ^ 64) :=
  (u64_overflow_wrap "BIGINT UNSIGNED"
      { emptyConnCell with optU64 := some (some (2 ^ 63)) } (2 ^ 63)
      rfl rfl rfl rfl rfl rfl (by norm_num) (by norm_num)).1
